import Mathlib

/-!
Verification development for the state backend and instrumented execution core
of a local Ethereum-compatible development node / test runner.

The definitions below are shallow embeddings of the corresponding source
functions:
* `Executor.ensure_success`, `Executor.is_success`, `calc_stipend`,
  `Executor.deploy_create2_deployer`, `Executor.deploy_with_env`,
  `Executor.call_raw` from `crates/evm/evm/src/executors/mod.rs`;
* `ClientFork.reset`, `ClientFork.get_code`, `ClientForkConfig.update`,
  `ForkedStorage.clear` from `anvil/src/eth/backend/fork.rs`;
* `ForkedDatabase.reset` from `anvil/src/eth/backend/db.rs`.

Machine integers (`U256`, `u64`, bytes) are modelled as `Nat`; none of the
verified operations rely on wrap-around arithmetic.  Addresses are modelled as
`Nat` (the 160-bit constants keep their concrete numeric values).  Opaque
collaborators (the bytecode interpreter loop, ABI coding, the remote JSON-RPC
provider) are passed in as explicit function parameters, as the specification
declares them out of scope.
-/

set_option autoImplicit false

namespace Foundry

/-- Account addresses (160-bit), abstracted as natural numbers. -/
abbrev Addr := Nat

/-- The fixed cheatcode-handler address `CHEATCODE_ADDRESS`
(`0x7109709ECfa91a80626fF3989D68f67F5b1DD12D`). -/
def CHEATCODE_ADDRESS : Addr := 0x7109709ECfa91a80626fF3989D68f67F5b1DD12D

/-- The well-known CREATE2 deployer address `DEFAULT_CREATE2_DEPLOYER`
(`0x4e59b44847b379578588920cA78FbF26c0B4956C`). -/
def DEFAULT_CREATE2_DEPLOYER : Addr := 0x4e59b44847b379578588920cA78FbF26c0B4956C

/-- The default test caller address `CALLER`. -/
def CALLER : Addr := 0x1804c8AB1F12E6bbf3894d4083f33e07309d1f38

/-- The fixed bootstrap creator address used by `deploy_create2_deployer`
(`0x3fAB184622Dc19b6109349B94811493BF2a45362`, parsed in the source). -/
def CREATE2_DEPLOYER_CREATOR : Addr := 0x3fAB184622Dc19b6109349B94811493BF2a45362

/-- `U256::MAX`. -/
def U256_MAX : Nat := 2 ^ 256 - 1

/-- Modelled from the spec: the fixed CREATE2 deployer creation bytecode
(`DEFAULT_CREATE2_DEPLOYER_CODE`); its exact bytes are irrelevant to the
verified properties, only that it is a fixed byte sequence. -/
def DEFAULT_CREATE2_DEPLOYER_CODE : List Nat := [0x60, 0x4b, 0x80, 0x60, 0x09]

/-- Account state: balance, nonce and optional contract code
(`revm::primitives::AccountInfo`, code hash omitted). -/
structure AccountInfo where
  balance : Nat
  nonce : Nat
  code : Option (List Nat)
deriving Repr, DecidableEq, Inhabited

/-- Association-list lookup for account maps (first binding wins). -/
def lookupAcc (m : List (Addr × AccountInfo)) (a : Addr) : Option AccountInfo :=
  (m.find? (fun p => p.1 == a)).map (·.2)

/-- Association-list insert/overwrite for account maps. -/
def insertAcc (m : List (Addr × AccountInfo)) (a : Addr) (v : AccountInfo) :
    List (Addr × AccountInfo) :=
  (a, v) :: m.filter (fun p => p.1 != a)

/-- Association-list lookup for storage maps keyed by (address, slot). -/
def lookupStor (m : List ((Addr × Nat) × Nat)) (k : Addr × Nat) : Option Nat :=
  (m.find? (fun p => p.1 == k)).map (·.2)

/-- Association-list insert/overwrite for storage maps. -/
def insertStor (m : List ((Addr × Nat) × Nat)) (k : Addr × Nat) (v : Nat) :
    List ((Addr × Nat) × Nat) :=
  (k, v) :: m.filter (fun p => p.1 != k)

/-- Database-level errors surfaced by backend reads
(`foundry_evm_core::backend::DatabaseError`, restricted to the variants the
verified code paths can produce). -/
inductive DatabaseError where
  | MissingAccount (a : Addr)
  | GetAccount (a : Addr)
deriving Repr, DecidableEq

/-- Modelled from the spec: the `Backend` the executor talks to
(`foundry_evm_core::backend::Backend`, whose implementation is outside the
observed sources).  It exposes fallible account reads, account/storage writes,
a commit operation for state changesets, the recorded snapshot-failure flag and
the set of persistent accounts.  Addresses in `failingReads` model keys whose
remote fetch fails (a `RemoteFetchError`). -/
structure Backend where
  accounts : List (Addr × AccountInfo)
  storage : List ((Addr × Nat) × Nat)
  failingReads : List Addr
  snapshotFailure : Bool
  persistent : List Addr
deriving Repr, DecidableEq, Inhabited

/-- Modelled from the spec: fallible account read (`Backend::basic_ref`).
A read of a key whose remote fetch fails propagates an explicit error, never a
silent default; an address never seen yields `none`. -/
def Backend.basic_ref (b : Backend) (a : Addr) : Except DatabaseError (Option AccountInfo) :=
  if a ∈ b.failingReads then .error (.GetAccount a) else .ok (lookupAcc b.accounts a)

/-- Modelled from the spec: administrative account write
(`Backend::insert_account_info`). -/
def Backend.insert_account_info (b : Backend) (a : Addr) (v : AccountInfo) : Backend :=
  { b with accounts := insertAcc b.accounts a v }

/-- `Backend::has_snapshot_failure`: whether a reverted snapshot undid a
recorded global failure. -/
def Backend.has_snapshot_failure (b : Backend) : Bool := b.snapshotFailure

/-- Modelled from the spec: `Backend::clone_empty` produces a fresh backend
sharing the fork configuration but holding no local state. -/
def Backend.clone_empty (b : Backend) : Backend :=
  { accounts := [], storage := [], failingReads := b.failingReads,
    snapshotFailure := b.snapshotFailure, persistent := b.persistent }

/-- Storage read with zero default for unset slots. -/
def Backend.storageAt (b : Backend) (a : Addr) (slot : Nat) : Nat :=
  (lookupStor b.storage (a, slot)).getD 0

/-- One account's worth of a state changeset: absolute post-call account info
and storage writes (`revm::primitives::Account`, status flags omitted). -/
structure ChangedAccount where
  info : AccountInfo
  storage : List (Nat × Nat)
deriving Repr, DecidableEq, Inhabited

/-- A state changeset (`StateChangeset`): address → absolute post-call state. -/
abbrev StateChangeset := List (Addr × ChangedAccount)

/-- Apply one changed account onto a backend. -/
def Backend.commitOne (b : Backend) (a : Addr) (acc : ChangedAccount) : Backend :=
  { b with
    accounts := insertAcc b.accounts a acc.info
    storage := acc.storage.foldl (fun st kv => insertStor st (a, kv.1) kv.2) b.storage }

/-- Modelled from the spec: `Backend::commit` applies a state changeset of
absolute post-call values onto the backend. -/
def Backend.commit (b : Backend) (cs : StateChangeset) : Backend :=
  cs.foldl (fun b p => b.commitOne p.1 p.2) b

/-- Modelled from the spec: `Backend::add_persistent_account`. -/
def Backend.add_persistent_account (b : Backend) (a : Addr) : Backend :=
  { b with persistent := a :: b.persistent }

/-! ## Specification identifiers and `calc_stipend` -/

/-- Hardfork specification identifier (`revm::primitives::SpecId`), restricted
to a representative, correctly ordered subset of the hardforks. -/
inductive SpecId where
  | FRONTIER
  | HOMESTEAD
  | TANGERINE
  | SPURIOUS_DRAGON
  | BYZANTIUM
  | CONSTANTINOPLE
  | PETERSBURG
  | ISTANBUL
  | BERLIN
  | LONDON
  | MERGE
  | SHANGHAI
  | CANCUN
  | LATEST
deriving Repr, DecidableEq

/-- Discriminant of a `SpecId` (its declaration order). -/
def SpecId.toNat : SpecId → Nat
  | .FRONTIER => 0
  | .HOMESTEAD => 1
  | .TANGERINE => 2
  | .SPURIOUS_DRAGON => 3
  | .BYZANTIUM => 4
  | .CONSTANTINOPLE => 5
  | .PETERSBURG => 6
  | .ISTANBUL => 7
  | .BERLIN => 8
  | .LONDON => 9
  | .MERGE => 10
  | .SHANGHAI => 11
  | .CANCUN => 12
  | .LATEST => 13

/-- `SpecId::enabled(our, other)`: whether hardfork `other` is active in spec
`our` (discriminant comparison, as in revm). -/
def SpecId.enabled (our other : SpecId) : Bool :=
  other.toNat ≤ our.toNat

/-- `calc_stipend`: the initial gas stipend for a transaction — base 21000,
plus 4 per zero calldata byte, plus 16 (post-Istanbul) or 68 (pre-Istanbul) per
nonzero calldata byte. -/
def calc_stipend (calldata : List Nat) (spec : SpecId) : Nat :=
  let non_zero_data_cost := if SpecId.enabled spec .ISTANBUL then 16 else 68
  calldata.foldl (fun sum byte => sum + if byte = 0 then 4 else non_zero_data_cost) 21000

/-- Folding `+ f b` over a list starting from `init` is `init` plus the sum of
the mapped list. -/
theorem foldl_add_map_sum (f : Nat → Nat) (d : List Nat) (init : Nat) :
    d.foldl (fun sum b => sum + f b) init = init + (d.map f).sum := by
  induction d generalizing init with
  | nil => simp
  | cons b t ih => simp [List.foldl, ih, Nat.add_assoc]

/-- Claim C2: `calc_stipend(d, spec)` equals 21000 plus, for each byte `b` of
`d`, 4 if `b` is zero, else 16 if the Istanbul byte-cost reduction is enabled
in `spec`, else 68; concretely `calc_stipend([], post-Istanbul) = 21000`,
`calc_stipend([0x00], post-Istanbul) = 21004`,
`calc_stipend([0x01], post-Istanbul) = 21016` and
`calc_stipend([0x01], pre-Istanbul) = 21068`. -/
theorem calc_stipend_spec (d : List Nat) (spec : SpecId) :
    calc_stipend d spec
      = 21000 + (d.map (fun b =>
          if b = 0 then 4 else if SpecId.enabled spec .ISTANBUL then 16 else 68)).sum
    ∧ calc_stipend [] .ISTANBUL = 21000
    ∧ calc_stipend [0x00] .ISTANBUL = 21004
    ∧ calc_stipend [0x01] .ISTANBUL = 21016
    ∧ calc_stipend [0x01] .PETERSBURG = 21068 := by
  refine ⟨?_, by decide, by decide, by decide, by decide⟩
  unfold calc_stipend
  exact foldl_add_map_sum _ d 21000

/-! ## The executor and its success-evaluation protocol -/

/-- Context after an execution error (`ExecutionErr`; logs/traces/labels — data
collected by out-of-scope inspector collaborators — are omitted). -/
structure ExecutionErr where
  reverted : Bool
  reason : String
  gas_used : Nat
  gas_refunded : Nat
  stipend : Nat
  state_changeset : Option StateChangeset
deriving Repr, DecidableEq

/-- The executor's error taxonomy (`EvmError`). -/
inductive EvmError where
  | Execution (e : ExecutionErr)
  | AbiError
  | SkipError
  | Eyre (msg : String)
deriving Repr, DecidableEq

/-- The `Executor`: the backend plus the retained environment data the claims
depend on (the gas-limit override and the active hardfork spec; the inspector
stack is an out-of-scope collaborator). -/
structure Executor where
  backend : Backend
  gas_limit : Nat
  spec : SpecId
deriving Repr, DecidableEq

/-- The non-empty one-byte stub contract installed on the cheatcode address so
`extcodesize` checks succeed. -/
def cheatcodeStubAccount : AccountInfo :=
  { balance := 0, nonce := 0, code := some [0] }

/-- `Executor::new`: wraps a backend and installs the non-empty stub contract
at `CHEATCODE_ADDRESS`. -/
def Executor.new (backend : Backend) (gas_limit : Nat) (spec : SpecId) : Executor :=
  { backend := backend.insert_account_info CHEATCODE_ADDRESS cheatcodeStubAccount,
    gas_limit := gas_limit, spec := spec }

/-- `Executor::get_balance`: balance of an account, zero-defaulted. -/
def Executor.get_balance (ex : Executor) (address : Addr) : Except DatabaseError Nat :=
  match ex.backend.basic_ref address with
  | .error e => .error e
  | .ok acc => .ok ((acc.map (·.balance)).getD 0)

/-- `Executor::set_balance`: read-modify-write of an account's balance. -/
def Executor.set_balance (ex : Executor) (address : Addr) (amount : Nat) :
    Except DatabaseError Executor :=
  match ex.backend.basic_ref address with
  | .error e => .error e
  | .ok acc =>
    let account := { acc.getD default with balance := amount }
    .ok { ex with backend := ex.backend.insert_account_info address account }

/-- The outcome of the non-committing `failed()(bool)` probe call issued by
`ensure_success` against the reconstructed minimal backend: the interpreter
drive and ABI decode are opaque collaborators, so the probe is a parameter.
`.ok b` means the call succeeded and decoded to `b`; `.error e` means the call
itself failed. -/
abbrev FailedProbe := Executor → Addr → Except EvmError Bool

/-- `Executor::ensure_success`: if the backend recorded a snapshot failure the
result is `should_fail` verbatim; otherwise the test contract's and the
cheatcode handler's basic account info are copied onto a fresh minimal backend
(each read propagating database errors), the call's state changeset is applied
onto it, `success` starts as `!reverted`, and if still true the fresh
`failed()(bool)` probe is issued — a successful probe overwrites `success` with
the negation of the decoded flag; the result is `should_fail XOR success`.
(The source's two-iteration account-copy loop is unrolled.) -/
def Executor.ensure_success (probe : FailedProbe) (ex : Executor) (address : Addr)
    (reverted : Bool) (state_changeset : StateChangeset) (should_fail : Bool) :
    Except DatabaseError Bool :=
  if ex.backend.has_snapshot_failure then .ok should_fail
  else
    match ex.backend.basic_ref address with
    | .error e => .error e
    | .ok acc0 =>
      match ex.backend.basic_ref CHEATCODE_ADDRESS with
      | .error e => .error e
      | .ok acc1 =>
        let backend :=
          ((ex.backend.clone_empty.insert_account_info address (acc0.getD default)
            ).insert_account_info CHEATCODE_ADDRESS (acc1.getD default)
            ).commit state_changeset
        let success := !reverted
        let success :=
          if success then
            match probe (Executor.new backend ex.gas_limit ex.spec) address with
            | .ok failed => !failed
            | .error _ => success
          else success
        .ok (Bool.xor should_fail success)

/-- `Executor::is_success`: `ensure_success` with errors collapsed to `false`
via `unwrap_or_default`. -/
def Executor.is_success (probe : FailedProbe) (ex : Executor) (address : Addr)
    (reverted : Bool) (state_changeset : StateChangeset) (should_fail : Bool) : Bool :=
  ((ex.ensure_success probe address reverted state_changeset should_fail).toOption).getD false

/-- The basic account info the specification says the minimal backend holds for
an address: the info read from the real backend, zero-defaulted. -/
def specAccountOf (ex : Executor) (a : Addr) : AccountInfo :=
  match ex.backend.basic_ref a with
  | .ok (some acc) => acc
  | _ => default

/-- The fresh minimal backend described by the specification: only the basic
account info of the target and of the cheatcode handler, with the call's state
changeset applied on top. -/
def specMiniBackend (ex : Executor) (address : Addr) (cs : StateChangeset) : Backend :=
  ((ex.backend.clone_empty.insert_account_info address (specAccountOf ex address)
    ).insert_account_info CHEATCODE_ADDRESS (specAccountOf ex CHEATCODE_ADDRESS)
    ).commit cs

/-- The `success` value as the specification's words describe it: `false` when
the call reverted, otherwise `false` exactly when the `failed()(bool)` probe on
the minimal backend succeeds and decodes to `true`. -/
def successPerSpec (probe : FailedProbe) (ex : Executor) (address : Addr)
    (reverted : Bool) (cs : StateChangeset) : Bool :=
  if reverted then false
  else
    match probe (Executor.new (specMiniBackend ex address cs) ex.gas_limit ex.spec) address with
    | .ok true => false
    | _ => true

/-- The success-evaluation result as the specification's words describe it:
`should_fail` verbatim on a snapshot failure, else `should_fail XOR success`. -/
def ensureSuccessSpec (probe : FailedProbe) (ex : Executor) (address : Addr)
    (reverted : Bool) (cs : StateChangeset) (should_fail : Bool) : Bool :=
  if ex.backend.has_snapshot_failure then should_fail
  else Bool.xor should_fail (successPerSpec probe ex address reverted cs)

/-- Claim C1: whenever the two backend reads succeed, `ensure_success` reports
a snapshot failure as `should_fail` verbatim and otherwise returns
`should_fail XOR success`, where `success` starts as `!reverted` and is set to
`false` exactly when the fresh `failed()(bool)` probe against the minimal
backend (target and cheatcode-handler accounts plus the call's changeset)
succeeds and decodes to `true`; concretely, `(should_fail, reverted)` of
`(true, true)` gives `true`, `(false, true)` gives `false`, and with the
global flag unset `(true, false)` gives `false` and `(false, false)` gives
`true`. -/
theorem ensure_success_matches_spec_and_truth_table
    (probe : FailedProbe) (ex : Executor) (address : Addr) (cs : StateChangeset)
    (o1 o2 : Option AccountInfo)
    (h1 : ex.backend.basic_ref address = .ok o1)
    (h2 : ex.backend.basic_ref CHEATCODE_ADDRESS = .ok o2) :
    (∀ reverted should_fail,
        Executor.ensure_success probe ex address reverted cs should_fail
          = .ok (ensureSuccessSpec probe ex address reverted cs should_fail))
    ∧ Executor.ensure_success probe ex address true cs true = .ok true
    ∧ Executor.ensure_success probe ex address true cs false = .ok false
    ∧ (ex.backend.has_snapshot_failure = false →
        probe (Executor.new (specMiniBackend ex address cs) ex.gas_limit ex.spec) address
          = .ok false →
        Executor.ensure_success probe ex address false cs true = .ok false
        ∧ Executor.ensure_success probe ex address false cs false = .ok true) := by
  have hacc1 : specAccountOf ex address = o1.getD default := by
    unfold specAccountOf; rw [h1]; cases o1 <;> rfl
  have hacc2 : specAccountOf ex CHEATCODE_ADDRESS = o2.getD default := by
    unfold specAccountOf; rw [h2]; cases o2 <;> rfl
  have hmini : specMiniBackend ex address cs =
      ((ex.backend.clone_empty.insert_account_info address (o1.getD default)
        ).insert_account_info CHEATCODE_ADDRESS (o2.getD default)).commit cs := by
    unfold specMiniBackend; rw [hacc1, hacc2]
  have general : ∀ reverted should_fail,
      Executor.ensure_success probe ex address reverted cs should_fail
        = .ok (ensureSuccessSpec probe ex address reverted cs should_fail) := by
    intro reverted should_fail
    unfold Executor.ensure_success ensureSuccessSpec successPerSpec
    rw [hmini]
    cases hsf : ex.backend.has_snapshot_failure with
    | true => simp
    | false =>
      simp only [Bool.false_eq_true, if_false, h1, h2]
      cases reverted with
      | true => simp
      | false =>
        simp only [Bool.not_true, Bool.not_false, if_true, if_false]
        cases hp : probe
            (Executor.new
              (((ex.backend.clone_empty.insert_account_info address (o1.getD default)
                ).insert_account_info CHEATCODE_ADDRESS (o2.getD default)).commit cs)
              ex.gas_limit ex.spec) address with
        | error e => simp
        | ok failed => cases failed <;> simp
  refine ⟨general, ?_, ?_, ?_⟩
  · rw [general true true]
    unfold ensureSuccessSpec successPerSpec
    cases hsf : ex.backend.has_snapshot_failure <;> simp
  · rw [general true false]
    unfold ensureSuccessSpec successPerSpec
    cases hsf : ex.backend.has_snapshot_failure <;> simp
  · intro hsf hp
    constructor
    · rw [general false true]
      unfold ensureSuccessSpec successPerSpec
      rw [hsf, hp]
      simp
    · rw [general false false]
      unfold ensureSuccessSpec successPerSpec
      rw [hsf, hp]
      simp

/-- A probe standing for a run in which the legacy global failure flag is
unset: the `failed()(bool)` call succeeds and decodes to `false`. -/
def probeFlagUnset : FailedProbe := fun _ _ => .ok false

/-- A probe whose `failed()(bool)` call itself fails. -/
def probeErr : FailedProbe := fun _ _ => .error .AbiError

/-- A fresh executor over an empty backend with no snapshot failure. -/
def exEmpty : Executor :=
  { backend := { accounts := [], storage := [], failingReads := [],
                 snapshotFailure := false, persistent := [] },
    gas_limit := 1000000, spec := .ISTANBUL }

/-- An executor whose backend fails the account read of address 7. -/
def exFailing : Executor :=
  { backend := { accounts := [], storage := [], failingReads := [7],
                 snapshotFailure := false, persistent := [] },
    gas_limit := 1000000, spec := .ISTANBUL }

/-- Witness for C1: the four truth-table rows, evaluated on a concrete
executor with the global flag unset. -/
theorem ensure_success_matches_spec_and_truth_table_witness :
    Executor.ensure_success probeFlagUnset exEmpty 5 true [] true = .ok true
    ∧ Executor.ensure_success probeFlagUnset exEmpty 5 true [] false = .ok false
    ∧ Executor.ensure_success probeFlagUnset exEmpty 5 false [] true = .ok false
    ∧ Executor.ensure_success probeFlagUnset exEmpty 5 false [] false = .ok true := by
  have h := ensure_success_matches_spec_and_truth_table probeFlagUnset exEmpty 5 []
    none none rfl rfl
  exact ⟨h.2.1, h.2.2.1, (h.2.2.2 rfl rfl).1, (h.2.2.2 rfl rfl).2⟩

/-- Claim C9: when `ensure_success` fails with a database error, `is_success`
does not surface the error — it collapses it to `false` via
`unwrap_or_default`, for every value of `should_fail`. -/
theorem is_success_defaults_to_false_on_db_error
    (probe : FailedProbe) (ex : Executor) (address : Addr) (reverted : Bool)
    (cs : StateChangeset) (should_fail : Bool) (e : DatabaseError)
    (h : Executor.ensure_success probe ex address reverted cs should_fail = .error e) :
    Executor.is_success probe ex address reverted cs should_fail = false := by
  unfold Executor.is_success
  rw [h]
  rfl

/-- Witness for C9: a backend whose read of the target account fails makes
`is_success` report `false` for both values of `should_fail` — in particular
an expected-to-fail test (`should_fail = true`) is reported as failing. -/
theorem is_success_defaults_to_false_on_db_error_witness :
    Executor.is_success probeFlagUnset exFailing 7 false [] true = false
    ∧ Executor.is_success probeFlagUnset exFailing 7 false [] false = false :=
  ⟨is_success_defaults_to_false_on_db_error probeFlagUnset exFailing 7 false [] true
      (.GetAccount 7) rfl,
   is_success_defaults_to_false_on_db_error probeFlagUnset exFailing 7 false [] false
      (.GetAccount 7) rfl⟩

/-- Claim C10: if the `failed()(bool)` probe call against the reconstructed
minimal backend fails, `ensure_success` silently skips the flag check:
`success` remains `!reverted`, the probe's error is not surfaced, and the
result is `should_fail XOR !reverted`. -/
theorem ensure_success_skips_failed_probe
    (probe : FailedProbe) (ex : Executor) (address : Addr)
    (reverted should_fail : Bool) (cs : StateChangeset)
    (o1 o2 : Option AccountInfo) (err : EvmError)
    (hsf : ex.backend.has_snapshot_failure = false)
    (h1 : ex.backend.basic_ref address = .ok o1)
    (h2 : ex.backend.basic_ref CHEATCODE_ADDRESS = .ok o2)
    (hp : probe (Executor.new
            (((ex.backend.clone_empty.insert_account_info address (o1.getD default)
              ).insert_account_info CHEATCODE_ADDRESS (o2.getD default)).commit cs)
            ex.gas_limit ex.spec) address = .error err) :
    Executor.ensure_success probe ex address reverted cs should_fail
      = .ok (Bool.xor should_fail (!reverted)) := by
  unfold Executor.ensure_success
  simp only [Backend.has_snapshot_failure] at hsf
  simp only [Backend.has_snapshot_failure, hsf, Bool.false_eq_true, if_false, h1, h2]
  cases reverted with
  | true => simp
  | false => simp [hp]

/-- Witness for C10: a probe that always errors leaves the outcome at
`should_fail XOR !reverted` on a concrete executor. -/
theorem ensure_success_skips_failed_probe_witness :
    Executor.ensure_success probeErr exEmpty 5 false [] false = .ok true
    ∧ Executor.ensure_success probeErr exEmpty 5 false [] true = .ok false :=
  ⟨ensure_success_skips_failed_probe probeErr exEmpty 5 false false [] none none
      .AbiError rfl rfl rfl rfl,
   ensure_success_skips_failed_probe probeErr exEmpty 5 false true [] none none
      .AbiError rfl rfl rfl rfl⟩

/-! ## The CREATE2 deployer bootstrap helper -/

/-- Error taxonomy of the bootstrap helper: a propagated database error or a
failed deployment. -/
inductive Create2Err where
  | Db (e : DatabaseError)
  | Deploy
deriving Repr, DecidableEq

/-- The opaque `Executor::deploy` step (it drives the bytecode interpreter):
from an executor, a creator address, creation code and a value it produces the
mutated executor and the created address, or an execution error. -/
abbrev DeployFn := Executor → Addr → List Nat → Nat → Except EvmError (Executor × Addr)

/-- The successful result of `Executor::set_balance`: the account at `a` is
rewritten with its balance set to `amount`. -/
def withBalance (ex : Executor) (a : Addr) (amount : Nat) : Executor :=
  let account := { (lookupAcc ex.backend.accounts a).getD default with balance := amount }
  { ex with backend := ex.backend.insert_account_info a account }

/-- The bootstrap creator's current balance, zero-defaulted. -/
def creatorBalance (ex : Executor) : Nat :=
  ((lookupAcc ex.backend.accounts CREATE2_DEPLOYER_CREATOR).map (·.balance)).getD 0

/-- `Executor::deploy_create2_deployer`: if the well-known deployer address
already has non-empty code this is a no-op; otherwise the helper records the
bootstrap creator's balance, grants it `U256::MAX`, deploys the fixed deployer
bytecode from it, and restores the recorded balance. -/
def Executor.deploy_create2_deployer (deployFn : DeployFn) (ex : Executor) :
    Except Create2Err Executor :=
  match ex.backend.basic_ref DEFAULT_CREATE2_DEPLOYER with
  | .error e => .error (.Db e)
  | .ok none => .error (.Db (.MissingAccount DEFAULT_CREATE2_DEPLOYER))
  | .ok (some create2_deployer_account) =>
    if (create2_deployer_account.code.map List.isEmpty).getD true then
      let creator := CREATE2_DEPLOYER_CREATOR
      match ex.get_balance creator with
      | .error e => .error (.Db e)
      | .ok initial_balance =>
        match ex.set_balance creator U256_MAX with
        | .error e => .error (.Db e)
        | .ok ex1 =>
          match deployFn ex1 creator DEFAULT_CREATE2_DEPLOYER_CODE 0 with
          | .error _ => .error .Deploy
          | .ok (ex2, _addr) =>
            match ex2.set_balance creator initial_balance with
            | .error e => .error (.Db e)
            | .ok ex3 => .ok ex3
    else .ok ex

/-- `get_balance` succeeds with the zero-defaulted looked-up balance whenever
the read does not fail. -/
theorem get_balance_ok (ex : Executor) (a : Addr) (h : a ∉ ex.backend.failingReads) :
    ex.get_balance a
      = .ok (((lookupAcc ex.backend.accounts a).map (·.balance)).getD 0) := by
  unfold Executor.get_balance Backend.basic_ref
  rw [if_neg h]

/-- `set_balance` succeeds with `withBalance` whenever the read does not
fail. -/
theorem set_balance_ok (ex : Executor) (a : Addr) (amount : Nat)
    (h : a ∉ ex.backend.failingReads) :
    ex.set_balance a amount = .ok (withBalance ex a amount) := by
  unfold Executor.set_balance Backend.basic_ref withBalance
  rw [if_neg h]

/-- Filtering out the bindings of key `a` does not change `find?` for a
different key. -/
theorem find?_filter_ne_key (m : List (Addr × AccountInfo)) (a a' : Addr) (h : a' ≠ a) :
    (m.filter (fun p => p.1 != a)).find? (fun p => p.1 == a')
      = m.find? (fun p => p.1 == a') := by
  induction m with
  | nil => rfl
  | cons hd t ih =>
    simp only [bne] at ih ⊢
    cases hb : (hd.1 == a) with
    | true =>
      have hq : (hd.1 == a') = false := by
        have hk : hd.1 = a := eq_of_beq hb
        rw [hk]
        exact beq_eq_false_iff_ne.mpr fun hc => h hc.symm
      simp [List.filter_cons, List.find?_cons, hb, hq, ih, -List.find?_filter]
    | false =>
      cases hq : (hd.1 == a') with
      | true => simp [List.filter_cons, List.find?_cons, hb, hq, -List.find?_filter]
      | false => simp [List.filter_cons, List.find?_cons, hb, hq, ih, -List.find?_filter]

/-- Inserting a binding for key `a` does not change the lookup of a different
key. -/
theorem lookupAcc_insertAcc_ne (m : List (Addr × AccountInfo)) (a a' : Addr)
    (v : AccountInfo) (h : a' ≠ a) :
    lookupAcc (insertAcc m a v) a' = lookupAcc m a' := by
  unfold lookupAcc insertAcc
  have hq : (a == a') = false := beq_eq_false_iff_ne.mpr fun hc => h hc.symm
  rw [List.find?_cons]
  simp only [hq]
  rw [find?_filter_ne_key m a a' h]

/-- Looking up a freshly inserted binding returns it. -/
theorem lookupAcc_insertAcc_self (m : List (Addr × AccountInfo)) (a : Addr)
    (v : AccountInfo) :
    lookupAcc (insertAcc m a v) a = some v := by
  unfold lookupAcc insertAcc
  rw [List.find?_cons]
  simp

/-- The deployer and the bootstrap creator are distinct addresses. -/
theorem deployer_ne_creator : DEFAULT_CREATE2_DEPLOYER ≠ CREATE2_DEPLOYER_CREATOR := by
  decide

/-- Claim C3: `deploy_create2_deployer` is idempotent and balance-preserving —
if the deployer address already has non-empty code the helper is a no-op (for
every deployment function, so nothing is deployed); otherwise it deploys once
and afterwards the bootstrap creator's balance equals exactly the balance it
held before the helper ran; and when the deployment installed non-empty code
at the deployer address, a second call is a no-op for every deployment
function, so two calls in a row perform exactly one deployment. -/
theorem deploy_create2_deployer_noop_and_balance (ex : Executor) :
    (∀ (dF : DeployFn) (acc : AccountInfo) (c : List Nat),
        ex.backend.basic_ref DEFAULT_CREATE2_DEPLOYER = .ok (some acc) →
        acc.code = some c → c ≠ [] →
        Executor.deploy_create2_deployer dF ex = .ok ex)
    ∧ (∀ (deployFn : DeployFn) (acc : AccountInfo) (ex2 : Executor) (newAddr : Addr),
        ex.backend.basic_ref DEFAULT_CREATE2_DEPLOYER = .ok (some acc) →
        (acc.code.map List.isEmpty).getD true = true →
        CREATE2_DEPLOYER_CREATOR ∉ ex.backend.failingReads →
        deployFn (withBalance ex CREATE2_DEPLOYER_CREATOR U256_MAX)
            CREATE2_DEPLOYER_CREATOR DEFAULT_CREATE2_DEPLOYER_CODE 0
          = .ok (ex2, newAddr) →
        CREATE2_DEPLOYER_CREATOR ∉ ex2.backend.failingReads →
        Executor.deploy_create2_deployer deployFn ex
            = .ok (withBalance ex2 CREATE2_DEPLOYER_CREATOR (creatorBalance ex))
        ∧ (withBalance ex2 CREATE2_DEPLOYER_CREATOR (creatorBalance ex)).get_balance
              CREATE2_DEPLOYER_CREATOR
            = ex.get_balance CREATE2_DEPLOYER_CREATOR
        ∧ (∀ (acc2 : AccountInfo) (c2 : List Nat),
            lookupAcc ex2.backend.accounts DEFAULT_CREATE2_DEPLOYER = some acc2 →
            acc2.code = some c2 → c2 ≠ [] →
            DEFAULT_CREATE2_DEPLOYER ∉ ex2.backend.failingReads →
            ∀ dF2 : DeployFn,
              Executor.deploy_create2_deployer dF2
                  (withBalance ex2 CREATE2_DEPLOYER_CREATOR (creatorBalance ex))
                = .ok (withBalance ex2 CREATE2_DEPLOYER_CREATOR (creatorBalance ex)))) := by
  constructor
  · intro dF acc c hread hcode hne
    unfold Executor.deploy_create2_deployer
    rw [hread]
    have hfalse : (acc.code.map List.isEmpty).getD true = false := by
      rw [hcode]
      cases c with
      | nil => exact absurd rfl hne
      | cons x xs => rfl
    simp [hfalse]
  · intro deployFn acc ex2 newAddr hread hcode hc1 hdep hc2
    have hball : Executor.deploy_create2_deployer deployFn ex
        = .ok (withBalance ex2 CREATE2_DEPLOYER_CREATOR (creatorBalance ex)) := by
      unfold Executor.deploy_create2_deployer
      rw [hread]
      simp only [hcode, if_true]
      rw [get_balance_ok ex CREATE2_DEPLOYER_CREATOR hc1]
      rw [set_balance_ok ex CREATE2_DEPLOYER_CREATOR U256_MAX hc1]
      simp only []
      rw [hdep]
      simp only [set_balance_ok ex2 CREATE2_DEPLOYER_CREATOR
        ((Option.map (fun x => x.balance)
          (lookupAcc ex.backend.accounts CREATE2_DEPLOYER_CREATOR)).getD 0) hc2]
      rfl
    refine ⟨hball, ?_, ?_⟩
    · have hc3 : CREATE2_DEPLOYER_CREATOR ∉
          (withBalance ex2 CREATE2_DEPLOYER_CREATOR (creatorBalance ex)).backend.failingReads :=
        hc2
      rw [get_balance_ok _ _ hc3, get_balance_ok ex _ hc1]
      simp [withBalance, Backend.insert_account_info, lookupAcc_insertAcc_self, creatorBalance]
    · intro acc2 c2 hl hcd hcne hfr dF2
      have hfr3 : DEFAULT_CREATE2_DEPLOYER ∉
          (withBalance ex2 CREATE2_DEPLOYER_CREATOR (creatorBalance ex)).backend.failingReads :=
        hfr
      have hbr : (withBalance ex2 CREATE2_DEPLOYER_CREATOR
            (creatorBalance ex)).backend.basic_ref DEFAULT_CREATE2_DEPLOYER
          = .ok (some acc2) := by
        unfold Backend.basic_ref
        rw [if_neg hfr3]
        have hacc : (withBalance ex2 CREATE2_DEPLOYER_CREATOR
              (creatorBalance ex)).backend.accounts
            = insertAcc ex2.backend.accounts CREATE2_DEPLOYER_CREATOR
                ({ (lookupAcc ex2.backend.accounts CREATE2_DEPLOYER_CREATOR).getD default
                    with balance := creatorBalance ex }) := rfl
        rw [hacc, lookupAcc_insertAcc_ne _ _ _ _ deployer_ne_creator, hl]
      unfold Executor.deploy_create2_deployer
      rw [hbr]
      have hfalse : (acc2.code.map List.isEmpty).getD true = false := by
        rw [hcd]
        cases c2 with
        | nil => exact absurd rfl hcne
        | cons x xs => rfl
      simp [hfalse]

/-- The account the sample deployment installs at the deployer address. -/
def deployedAcct : AccountInfo := { balance := 0, nonce := 1, code := some [1, 2, 3] }

/-- A concrete executor for the bootstrap witness: the deployer account exists
without code and the bootstrap creator holds balance 7. -/
def exC3Backend : Backend :=
  { accounts :=
      [(DEFAULT_CREATE2_DEPLOYER, { balance := 0, nonce := 0, code := none }),
       (CREATE2_DEPLOYER_CREATOR, { balance := 7, nonce := 0, code := none })],
    storage := [], failingReads := [], snapshotFailure := false, persistent := [] }

/-- See `exC3Backend`. -/
def exC3 : Executor :=
  { backend := exC3Backend, gas_limit := 1000000, spec := .ISTANBUL }

/-- A concrete deployment function that installs `deployedAcct` at the
deployer address. -/
def deployFnC3 : DeployFn := fun e _ _ _ =>
  .ok ({ e with backend := e.backend.insert_account_info DEFAULT_CREATE2_DEPLOYER deployedAcct },
       DEFAULT_CREATE2_DEPLOYER)

/-- The executor state right after the sample deployment step. -/
def exC3afterDeploy : Executor :=
  { (withBalance exC3 CREATE2_DEPLOYER_CREATOR U256_MAX) with
    backend := (withBalance exC3 CREATE2_DEPLOYER_CREATOR U256_MAX).backend.insert_account_info
      DEFAULT_CREATE2_DEPLOYER deployedAcct }

/-- The executor state after the helper returns: balance of the creator
restored to 7. -/
def exC3final : Executor := withBalance exC3afterDeploy CREATE2_DEPLOYER_CREATOR 7

/-- Witness for C3: on the concrete executor the helper deploys once, restores
the creator's balance to its original 7, and a second call is a no-op. -/
theorem deploy_create2_deployer_noop_and_balance_witness :
    Executor.deploy_create2_deployer deployFnC3 exC3 = .ok exC3final
    ∧ exC3final.get_balance CREATE2_DEPLOYER_CREATOR = .ok 7
    ∧ Executor.deploy_create2_deployer deployFnC3 exC3final = .ok exC3final := by
  have h := (deploy_create2_deployer_noop_and_balance exC3).2 deployFnC3
    { balance := 0, nonce := 0, code := none } exC3afterDeploy DEFAULT_CREATE2_DEPLOYER
    rfl rfl (by decide) rfl (by decide)
  exact ⟨h.1, h.2.1.trans rfl,
    h.2.2 deployedAcct [1, 2, 3] rfl rfl (by decide) (by decide) deployFnC3⟩

/-! ## The anvil fork handle: config update, reset and the response cache -/

/-- A remote JSON-RPC provider handle, abstracted to the url it was built
from (`ethers::Provider<Http>` is external code). -/
structure Provider where
  url : String
deriving Repr, DecidableEq

/-- anvil's blockchain error taxonomy, restricted to the variants the
verified paths produce. -/
inductive BlockchainError where
  | InvalidUrl (u : String)
  | Internal (msg : String)
deriving Repr, DecidableEq

/-- Fork metadata (`ClientForkConfig`). -/
structure ClientForkConfig where
  eth_rpc_url : String
  block_number : Nat
  block_hash : Nat
  provider : Provider
  chain_id : Nat
deriving Repr, DecidableEq

/-- `ClientForkConfig::update`: build a new provider from the url if one is
given (failing with `InvalidUrl` before mutating anything), then apply the
url and the block number.  The Rust method mutates `&mut self` and returns
`Result<()>`; it is modelled as returning the record as it stands when the
method returns together with the optional error, so partial mutation would be
observable.  `tryFrom` stands for the external `Provider::try_from`; `none`
models a url that cannot be parsed. -/
def ClientForkConfig.update (tryFrom : String → Option Provider)
    (cfg : ClientForkConfig) (url : Option String) (block_number : Option Nat) :
    ClientForkConfig × Option BlockchainError :=
  match url with
  | some u =>
    match tryFrom u with
    | none => (cfg, some (.InvalidUrl u))
    | some p =>
      let cfg := { cfg with provider := p, eth_rpc_url := u }
      match block_number with
      | some n => ({ cfg with block_number := n }, none)
      | none => (cfg, none)
  | none =>
    match block_number with
    | some n => ({ cfg with block_number := n }, none)
    | none => (cfg, none)

/-- The fork's response cache (`ForkedStorage`): block bodies, number→hash
entries, transactions, receipts, transaction traces, block traces and per
(address, block) code.  Entity bodies other than code are abstracted to `Nat`
identifiers. -/
structure ForkedStorage where
  blocks : List (Nat × Nat)
  hashes : List (Nat × Nat)
  transactions : List (Nat × Nat)
  transaction_receipts : List (Nat × Nat)
  transaction_traces : List (Nat × Nat)
  block_traces : List (Nat × Nat)
  code_at : List ((Addr × Nat) × List Nat)
deriving Repr, DecidableEq, Inhabited

/-- `ForkedStorage::clear`: replace with a completely new, empty instance. -/
def ForkedStorage.clear (_s : ForkedStorage) : ForkedStorage :=
  { blocks := [], hashes := [], transactions := [], transaction_receipts := [],
    transaction_traces := [], block_traces := [], code_at := [] }

/-- The fork database (`ForkedDatabase`): the shared backend's pinned block
plus the fetched-data store (`BlockchainDb`), abstracted to an account map. -/
structure ForkedDatabaseState where
  pinned_block : Nat
  db_accounts : List (Addr × AccountInfo)
deriving Repr, DecidableEq

/-- `ForkedDatabase::reset`: pin the new block on the shared backend if one is
given (`set_pinned_block` is repo code outside the observed sources, modelled
from the spec by the `setPinned` success predicate; on failure the error
returns early and nothing is cleared), then clear the fetched-data store.  The
url parameter is accepted but unused in the source. -/
def ForkedDatabase.reset (setPinned : Nat → Bool) (fdb : ForkedDatabaseState)
    (_url : Option String) (block_number : Option Nat) :
    ForkedDatabaseState × Option BlockchainError :=
  match block_number with
  | some n =>
    if setPinned n then ({ pinned_block := n, db_accounts := [] }, none)
    else (fdb, some (.Internal "failed to set pinned block"))
  | none => ({ fdb with db_accounts := [] }, none)

/-- The full fork handle state (`ClientFork`): response cache, config and
database. -/
structure ClientForkState where
  storage : ForkedStorage
  config : ClientForkConfig
  database : ForkedDatabaseState
deriving Repr, DecidableEq

/-- `ClientFork::reset`: reset the database, then update the config, then
clear the response cache, with the source's early returns — an error from
either of the first two steps returns before the later steps run. -/
def ClientFork.reset (setPinned : Nat → Bool) (tryFrom : String → Option Provider)
    (st : ClientForkState) (url : Option String) (block_number : Option Nat) :
    ClientForkState × Option BlockchainError :=
  match ForkedDatabase.reset setPinned st.database url block_number with
  | (db, some e) => ({ st with database := db }, some e)
  | (db, none) =>
    let st1 := { st with database := db }
    match ClientForkConfig.update tryFrom st1.config url block_number with
    | (cfg, some e) => ({ st1 with config := cfg }, some e)
    | (cfg, none) =>
      let st2 := { st1 with config := cfg }
      ({ st2 with storage := st2.storage.clear }, none)

/-- Claim C5: `ClientForkConfig::update` is all-or-nothing with respect to the
url — if the url cannot be parsed into a provider, update returns `InvalidUrl`
with the config record exactly as it was (no field mutated); if a provider is
established, `eth_rpc_url` and `provider` are updated and no error is
returned. -/
theorem client_fork_config_update_all_or_nothing
    (tryFrom : String → Option Provider) (cfg : ClientForkConfig)
    (u : String) (bn : Option Nat) :
    (tryFrom u = none →
      ClientForkConfig.update tryFrom cfg (some u) bn = (cfg, some (.InvalidUrl u)))
    ∧ (∀ p, tryFrom u = some p →
        (ClientForkConfig.update tryFrom cfg (some u) bn).1.eth_rpc_url = u
        ∧ (ClientForkConfig.update tryFrom cfg (some u) bn).1.provider = p
        ∧ (ClientForkConfig.update tryFrom cfg (some u) bn).2 = none) := by
  constructor
  · intro h
    simp [ClientForkConfig.update, h]
  · intro p h
    cases bn <;> simp [ClientForkConfig.update, h]

/-- A url parser that rejects every url. -/
def tryFromNone : String → Option Provider := fun _ => none

/-- A url parser that accepts every url. -/
def tryFromAll : String → Option Provider := fun s => some { url := s }

/-- A concrete fork config for the witnesses. -/
def cfg5 : ClientForkConfig :=
  { eth_rpc_url := "old", block_number := 1, block_hash := 11,
    provider := { url := "old" }, chain_id := 5 }

/-- Witness for C5: a rejected url leaves the concrete config untouched and
reports `InvalidUrl`; an accepted url rebinds the provider and the url. -/
theorem client_fork_config_update_all_or_nothing_witness :
    ClientForkConfig.update tryFromNone cfg5 (some "bad") (some 9)
        = (cfg5, some (.InvalidUrl "bad"))
    ∧ (ClientForkConfig.update tryFromAll cfg5 (some "good") (some 9)).1.eth_rpc_url
        = "good" := by
  have h1 := client_fork_config_update_all_or_nothing tryFromNone cfg5 "bad" (some 9)
  have h2 := client_fork_config_update_all_or_nothing tryFromAll cfg5 "good" (some 9)
  exact ⟨h1.1 rfl, (h2.2 { url := "good" } rfl).1⟩

/-- A concrete fork state with a non-empty response cache and pinned block 0. -/
def st6 : ClientForkState :=
  { storage := { blocks := [(1, 2)], hashes := [(2, 1)], transactions := [(3, 4)],
                 transaction_receipts := [], transaction_traces := [],
                 block_traces := [], code_at := [] },
    config := cfg5,
    database := { pinned_block := 0,
                  db_accounts := [(9, { balance := 1, nonce := 0, code := none })] } }

/-- Counterexample to C6 as stated: on `reset(Some(invalid url), Some(5))` the
database reset succeeds first (the pinned block becomes 5 and the fetched-data
store is cleared), then the config update fails, and `reset` returns the error
without ever clearing the response cache — the caller observes the new pinned
block together with an old cache entry. -/
theorem client_fork_reset_error_path_counterexample :
    (ClientFork.reset (fun _ => true) tryFromNone st6 (some "bad") (some 5)).2
        = some (.InvalidUrl "bad")
    ∧ (ClientFork.reset (fun _ => true) tryFromNone st6 (some "bad")
        (some 5)).1.database.pinned_block = 5
    ∧ (ClientFork.reset (fun _ => true) tryFromNone st6 (some "bad")
        (some 5)).1.storage.transactions = [(3, 4)] :=
  ⟨rfl, rfl, rfl⟩

/-- Claim C6 (amended): when `reset(url, Some(N))` returns without error, the
pinned block is applied (and the fetched-data store cleared) first, the config
is updated, and the entire response cache is fully cleared before `reset`
returns; when the config update fails, `reset` returns the error after the
pinned block was applied but without clearing the response cache (see the
counterexample). -/
theorem client_fork_reset_success_clears_cache
    (setPinned : Nat → Bool) (tryFrom : String → Option Provider)
    (st : ClientForkState) (url : Option String) (n : Nat)
    (hsp : setPinned n = true)
    (hupd : (ClientForkConfig.update tryFrom st.config url (some n)).2 = none) :
    ClientFork.reset setPinned tryFrom st url (some n)
      = ({ storage := st.storage.clear,
           config := (ClientForkConfig.update tryFrom st.config url (some n)).1,
           database := { pinned_block := n, db_accounts := [] } }, none) := by
  rcases hu : ClientForkConfig.update tryFrom st.config url (some n) with ⟨cfg, err⟩
  rw [hu] at hupd
  simp only at hupd
  subst hupd
  simp [ClientFork.reset, ForkedDatabase.reset, hsp, hu]

/-- Witness for the amended C6: on the concrete state a successful reset to
block 5 empties every cache collection and pins block 5. -/
theorem client_fork_reset_success_clears_cache_witness :
    ClientFork.reset (fun _ => true) tryFromAll st6 (some "good") (some 5)
      = ({ storage := ForkedStorage.clear st6.storage,
           config := (ClientForkConfig.update tryFromAll st6.config
              (some "good") (some 5)).1,
           database := { pinned_block := 5, db_accounts := [] } }, none) :=
  client_fork_reset_success_clears_cache (fun _ => true) tryFromAll st6
    (some "good") 5 rfl rfl

/-- Association-list lookup in the per-(address, block) code cache. -/
def lookupCode (m : List ((Addr × Nat) × List Nat)) (k : Addr × Nat) :
    Option (List Nat) :=
  (m.find? (fun p => p.1 == k)).map (·.2)

/-- The remote provider's pending `get_code` responses, consumed one per
fetch: the remote source is an external service that may fail on one call and
succeed on the next, so it is modelled as a sequence of responses. -/
abbrev ProviderResponses := List (Except Unit (List Nat))

/-- `ClientFork::get_code`: consult the cache under the (address, block) key;
on a hit return the cached bytes without touching the provider; on a miss
perform one remote fetch (consuming the next provider response), propagating a
fetch error without caching anything, and on success memoize and return the
fetched bytes.  An exhausted response list models an unreachable provider. -/
def ClientFork.get_code (storage : ForkedStorage) (prov : ProviderResponses)
    (address : Addr) (blocknumber : Nat) :
    Except Unit (List Nat) × ForkedStorage × ProviderResponses :=
  match lookupCode storage.code_at (address, blocknumber) with
  | some code => (.ok code, storage, prov)
  | none =>
    match prov with
    | [] => (.error (), storage, [])
    | resp :: rest =>
      match resp with
      | .error e => (.error e, storage, rest)
      | .ok code =>
        (.ok code,
         { storage with code_at := ((address, blocknumber), code) :: storage.code_at },
         rest)

/-- An empty response cache. -/
def emptyStorage : ForkedStorage :=
  { blocks := [], hashes := [], transactions := [], transaction_receipts := [],
    transaction_traces := [], block_traces := [], code_at := [] }

/-- Counterexample to C7 as stated: with an empty cache, a first
`get_code(1, 2)` whose remote fetch fails consumes a provider response without
caching anything, and a second call with identical arguments and no
intervening clear consumes another response — the remote fetch is invoked
twice in the sequence, not at most once. -/
theorem get_code_counterexample :
    ClientFork.get_code emptyStorage [.error (), .ok [7, 7]] 1 2
        = (.error (), emptyStorage, [.ok [7, 7]])
    ∧ (ClientFork.get_code emptyStorage [.ok [7, 7]] 1 2).2.2 = [] :=
  ⟨rfl, rfl⟩

/-- Claim C7 (amended): the remote fetch is invoked only by a call that finds
no cached entry for the key; a cache hit returns the memoized bytes and leaves
the provider untouched; after the first successful fetch the result is
memoized and every later call with the same key returns exactly those bytes
while consuming no provider response (so no further fetch ever occurs for that
key) — but a failed fetch caches nothing, so the next call fetches again. -/
theorem get_code_memoization
    (storage : ForkedStorage) (prov : ProviderResponses) (a n : Nat) :
    (∀ code, lookupCode storage.code_at (a, n) = some code →
        ClientFork.get_code storage prov a n = (.ok code, storage, prov))
    ∧ (∀ code rest, lookupCode storage.code_at (a, n) = none →
        prov = .ok code :: rest →
        ClientFork.get_code storage prov a n
          = (.ok code,
             { storage with code_at := ((a, n), code) :: storage.code_at }, rest)
        ∧ (∀ prov2,
            ClientFork.get_code
                { storage with code_at := ((a, n), code) :: storage.code_at } prov2 a n
              = (.ok code,
                 { storage with code_at := ((a, n), code) :: storage.code_at },
                 prov2))) := by
  constructor
  · intro code h
    simp [ClientFork.get_code, h]
  · intro code rest h hp
    subst hp
    refine ⟨by simp [ClientFork.get_code, h], ?_⟩
    intro prov2
    have hl : lookupCode (((a, n), code) :: storage.code_at) (a, n) = some code := by
      simp [lookupCode, List.find?_cons]
    simp [ClientFork.get_code, hl]

/-- Witness for the amended C7: a concrete miss-fetch-memoize run followed by
a hit that returns the identical bytes with no provider interaction. -/
theorem get_code_memoization_witness :
    ClientFork.get_code emptyStorage [.ok [7, 7]] 1 2
        = (.ok [7, 7], { emptyStorage with code_at := [((1, 2), [7, 7])] }, [])
    ∧ ClientFork.get_code { emptyStorage with code_at := [((1, 2), [7, 7])] } [] 1 2
        = (.ok [7, 7], { emptyStorage with code_at := [((1, 2), [7, 7])] }, []) := by
  have h := (get_code_memoization emptyStorage [.ok [7, 7]] 1 2).2 [7, 7] [] rfl rfl
  exact ⟨h.1, h.2 []⟩

/-! ## Raw calls, result conversion and deployment -/

/-- Call target (`TransactTo`). -/
inductive TransactTo where
  | Call (a : Addr)
  | Create
deriving Repr, DecidableEq

/-- The per-call execution environment built by `build_test_env` (chain config
and block fields beyond the claims' reach are omitted). -/
structure TestEnv where
  caller : Addr
  transact_to : TransactTo
  data : List Nat
  value : Nat
  gas_price : Nat
  basefee : Nat
  gas_limit : Nat
  spec : SpecId
deriving Repr, DecidableEq

/-- `Executor::build_test_env`: caller/target/calldata/value substituted, gas
price and base fee forced to zero, and the executor's gas-limit override
enforced. -/
def Executor.build_test_env (ex : Executor) (caller : Addr) (transact_to : TransactTo)
    (data : List Nat) (value : Nat) : TestEnv :=
  { caller := caller, transact_to := transact_to, data := data, value := value,
    gas_price := 0, basefee := 0, gas_limit := ex.gas_limit, spec := ex.spec }

/-- Interpreter output (`revm::primitives::Output`). -/
inductive Output where
  | Call (data : List Nat)
  | Create (data : List Nat) (address : Option Addr)
deriving Repr, DecidableEq

/-- Interpreter exit statuses (`InstructionResult`), restricted to the
variants the verified paths distinguish. -/
inductive InstructionResult where
  | Continue
  | Stop
  | Return
  | SelfDestruct
  | Revert
  | OutOfGas
deriving Repr, DecidableEq

/-- The `return_ok!()` pattern: the non-error exit reasons. -/
def InstructionResult.is_ok : InstructionResult → Bool
  | .Continue | .Stop | .Return | .SelfDestruct => true
  | _ => false

/-- `revm::primitives::ExecutionResult`. -/
inductive ExecutionResult where
  | Success (reason : InstructionResult) (gas_used gas_refunded : Nat) (output : Output)
  | Revert (gas_used : Nat) (output : List Nat)
  | Halt (reason : InstructionResult) (gas_used : Nat)
deriving Repr, DecidableEq

/-- `revm::primitives::ResultAndState`: the interpreter's result together with
the produced state changeset. -/
structure ResultAndState where
  result : ExecutionResult
  state : StateChangeset
deriving Repr, DecidableEq

/-- `RawCallResult` (inspector-collected logs/traces/labels omitted as
external collaborators). -/
structure RawCallResult where
  exit_reason : InstructionResult
  reverted : Bool
  has_snapshot_failure : Bool
  result : List Nat
  gas_used : Nat
  gas_refunded : Nat
  stipend : Nat
  state_changeset : Option StateChangeset
  out : Option Output
deriving Repr, DecidableEq

/-- `convert_executed_result`: a success keeps its reason, gas figures and
output; a revert maps to `Revert` with zero refund and a call output; a halt
keeps its reason with zero refund and no output; `reverted` is the negation of
`return_ok!()`, the stipend comes from the environment's calldata and spec,
and the whole state changeset is carried in the result. -/
def convert_executed_result (env : TestEnv) (r : ResultAndState)
    (has_snapshot_failure : Bool) : RawCallResult :=
  let tup : InstructionResult × Nat × Nat × Option Output :=
    match r.result with
    | .Success reason gas_used gas_refunded output =>
        (reason, gas_refunded, gas_used, some output)
    | .Revert gas_used output => (.Revert, 0, gas_used, some (.Call output))
    | .Halt reason gas_used => (reason, 0, gas_used, none)
  let exit_reason := tup.1
  let gas_refunded := tup.2.1
  let gas_used := tup.2.2.1
  let out := tup.2.2.2
  let stipend := calc_stipend env.data env.spec
  let result := match out with
    | some (.Call data) => data
    | _ => []
  { exit_reason := exit_reason, reverted := !exit_reason.is_ok,
    has_snapshot_failure := has_snapshot_failure, result := result,
    gas_used := gas_used, gas_refunded := gas_refunded, stipend := stipend,
    state_changeset := some r.state, out := out }

/-- Modelled from the spec: the interpreter drive through the copy-on-write
wrapper used by non-committing calls (`FuzzBackendWrapper::new(&backend)`
followed by `inspect_ref`): the interpreter receives read access to the
borrowed backend and a lazily created private copy for mutations; only the
overlay, never the borrowed backend, appears in its output. -/
abbrev CowInterp := TestEnv → Backend → Option Backend → Option Backend × ResultAndState

/-- The interpreter drive used by committing paths (`Backend::inspect_ref` on
the executor's own backend): it may mutate the backend and produces the
interpreter result and state changeset. -/
abbrev MutInterp := TestEnv → Backend → Backend × ResultAndState

/-- `Executor::call_raw` (non-committing): build the per-call environment, run
the interpreter through a fresh copy-on-write wrapper over the borrowed
backend, take the snapshot-failure flag from the wrapper, and convert the
result.  The call borrows the executor immutably, so the executor comes back
unchanged; the changeset lives only in the returned result. -/
def Executor.call_raw (interp : CowInterp) (ex : Executor) (frm toAddr : Addr)
    (calldata : List Nat) (value : Nat) : Executor × RawCallResult :=
  let env := ex.build_test_env frm (.Call toAddr) calldata value
  let ar := interp env ex.backend none
  let has_snapshot_failure := (ar.1.getD ex.backend).has_snapshot_failure
  (ex, convert_executed_result env ar.2 has_snapshot_failure)

/-- `Executor::call`: ABI encoding/decoding is an out-of-scope collaborator,
so the call is `call_raw` followed by an abstract `convert_call_result` step
that sees only the raw result, never the backend. -/
def Executor.call_typed (interp : CowInterp)
    (conv : RawCallResult → Except EvmError Bool) (ex : Executor) (frm toAddr : Addr)
    (calldata : List Nat) (value : Nat) : Executor × Except EvmError Bool :=
  let er := ex.call_raw interp frm toAddr calldata value
  (er.1, conv er.2)

/-- `Executor::call_raw_with_env`: drive the interpreter on the executor's own
backend and convert the result, reading the snapshot-failure flag from the
(possibly mutated) backend. -/
def Executor.call_raw_with_env (interp : MutInterp) (ex : Executor) (env : TestEnv) :
    Executor × RawCallResult :=
  let br := interp env ex.backend
  let ex2 := { ex with backend := br.1 }
  (ex2, convert_executed_result env br.2 ex2.backend.has_snapshot_failure)

/-- `Executor::commit`: persist the result's state changeset, if any, to the
backend (the cheatcode and environment bookkeeping concerns out-of-scope
inspector state). -/
def Executor.commitRaw (ex : Executor) (r : RawCallResult) : Executor :=
  match r.state_changeset with
  | some changes => { ex with backend := ex.backend.commit changes }
  | none => ex

/-- The fixed reason string reported when a deployment succeeds without
returning an address. -/
def deployNoAddressMsg : String :=
  "Deployment succeeded, but no address was returned. This is a bug, please report it"

/-- The result of a deployment (`DeployResult`; inspector data omitted). -/
structure DeployResult where
  address : Addr
  gas_used : Nat
  gas_refunded : Nat
deriving Repr, DecidableEq

/-- `Executor::deploy_with_env`: run and commit the create transaction; on a
`return_ok!()` exit reason extract the created address from the output — its
absence yields an `EvmError::Execution` carrying the fixed internal-bug reason
and `reverted := true` — and mark the created address persistent; on any other
exit reason decode the revert reason (decoder abstracted) into an
`EvmError::Execution`. -/
def Executor.deploy_with_env (interp : MutInterp)
    (decode : List Nat → InstructionResult → String) (ex : Executor) (env : TestEnv) :
    Except EvmError (Executor × DeployResult) :=
  let er := ex.call_raw_with_env interp env
  let result := er.2
  let ex2 := er.1.commitRaw result
  let resultBytes := match result.out with
    | some (.Create data _) => data
    | _ => []
  if result.exit_reason.is_ok then
    match result.out with
    | some (.Create _ (some addr)) =>
      .ok ({ ex2 with backend := ex2.backend.add_persistent_account addr },
           { address := addr, gas_used := result.gas_used,
             gas_refunded := result.gas_refunded })
    | _ =>
      .error (.Execution { reverted := true, reason := deployNoAddressMsg,
                           gas_used := result.gas_used, gas_refunded := 0, stipend := 0,
                           state_changeset := none })
  else
    .error (.Execution { reverted := true,
                         reason := decode resultBytes result.exit_reason,
                         gas_used := result.gas_used,
                         gas_refunded := result.gas_refunded, stipend := 0,
                         state_changeset := none })

/-- Claim C8: a non-committing `call_raw` (and `call`, which wraps it) leaves
the executor's backend durable state unchanged — the executor comes back
identical, so every account info and every storage slot reads the same before
and after — and the state changeset produced by the interpreter run is carried
only in the returned result, never committed to the backend. -/
theorem call_raw_is_non_committing (interp : CowInterp)
    (conv : RawCallResult → Except EvmError Bool) (ex : Executor)
    (frm toAddr : Addr) (calldata : List Nat) (value : Nat) :
    (ex.call_raw interp frm toAddr calldata value).1 = ex
    ∧ (∀ a, (ex.call_raw interp frm toAddr calldata value).1.backend.basic_ref a
          = ex.backend.basic_ref a)
    ∧ (∀ a slot,
        (ex.call_raw interp frm toAddr calldata value).1.backend.storageAt a slot
          = ex.backend.storageAt a slot)
    ∧ (ex.call_raw interp frm toAddr calldata value).2.state_changeset
        = some (interp (ex.build_test_env frm (.Call toAddr) calldata value)
            ex.backend none).2.state
    ∧ (ex.call_typed interp conv frm toAddr calldata value).1 = ex :=
  ⟨rfl, fun _ => rfl, fun _ _ => rfl, rfl, rfl⟩

/-- An interpreter run that reports success but yields a create output with no
address. -/
def interpNoAddr : MutInterp := fun _ b =>
  (b, { result := .Success .Return 100 0 (.Create [] none), state := [] })

/-- An interpreter run that reverts. -/
def interpRevert : MutInterp := fun _ b =>
  (b, { result := .Revert 50 [1], state := [] })

/-- A concrete revert decoder. -/
def decodeC4 : List Nat → InstructionResult → String := fun _ _ => "revert reason"

/-- A concrete create-transaction environment. -/
def envC4 : TestEnv := exEmpty.build_test_env CALLER .Create [0] 0

/-- Counterexample to C4 as stated: a successful interpreter run without a
created address makes `deploy_with_env` fail with `EvmError::Execution` — the
very same ordinary execution-error variant (even flagged `reverted := true`)
that a normal failed deployment produces — so the outcome is not an error
class distinguished from a normal call failure; only the fixed reason string
differs. -/
theorem deploy_no_address_counterexample :
    Executor.deploy_with_env interpNoAddr decodeC4 exEmpty envC4
      = .error (.Execution { reverted := true, reason := deployNoAddressMsg,
                             gas_used := 100, gas_refunded := 0, stipend := 0,
                             state_changeset := none })
    ∧ Executor.deploy_with_env interpRevert decodeC4 exEmpty envC4
      = .error (.Execution { reverted := true, reason := "revert reason",
                             gas_used := 50, gas_refunded := 0, stipend := 0,
                             state_changeset := none }) :=
  ⟨rfl, rfl⟩

/-- Claim C4 (amended): when the interpreter run reports a non-error exit
reason but the output contains no created address, `deploy_with_env` is not
swallowed into a `DeployResult`: it fails with an `EvmError::Execution`
carrying the fixed reason string identifying an internal bug
(`"Deployment succeeded, but no address was returned. This is a bug, please
report it"`) and `reverted := true` — the same ordinary execution-error
variant as a normal call failure, distinguished only by that reason string. -/
theorem deploy_no_address_is_ordinary_execution_error (interp : MutInterp)
    (decode : List Nat → InstructionResult → String) (ex : Executor) (env : TestEnv)
    (hok : ((ex.call_raw_with_env interp env).2).exit_reason.is_ok = true)
    (hout : ∀ data addr,
        ((ex.call_raw_with_env interp env).2).out ≠ some (.Create data (some addr))) :
    Executor.deploy_with_env interp decode ex env
      = .error (.Execution { reverted := true, reason := deployNoAddressMsg,
                             gas_used := ((ex.call_raw_with_env interp env).2).gas_used,
                             gas_refunded := 0, stipend := 0,
                             state_changeset := none }) := by
  cases hcase : (ex.call_raw_with_env interp env).2.out with
  | none => simp [Executor.deploy_with_env, hok, hcase]
  | some o =>
    cases o with
    | Call data => simp [Executor.deploy_with_env, hok, hcase]
    | Create data addr =>
      cases addr with
      | none => simp [Executor.deploy_with_env, hok, hcase]
      | some a => exact absurd hcase (hout data a)

/-- Witness for the amended C4: the concrete no-address success run yields
exactly the internal-bug execution error. -/
theorem deploy_no_address_is_ordinary_execution_error_witness :
    Executor.deploy_with_env interpNoAddr decodeC4 exEmpty envC4
      = .error (.Execution { reverted := true, reason := deployNoAddressMsg,
                             gas_used := 100, gas_refunded := 0, stipend := 0,
                             state_changeset := none }) := by
  have h := deploy_no_address_is_ordinary_execution_error interpNoAddr decodeC4
    exEmpty envC4 rfl (by
      intro data addr hcon
      rw [show (exEmpty.call_raw_with_env interpNoAddr envC4).2.out
            = some (.Create [] none) from rfl] at hcon
      simp at hcon)
  exact h

end Foundry
